import Mathlib

/-!
Verification of the specification of the SageMaker batch-transform
callback-step sample against a shallow embedding of its code.

The repository consists of a notebook (`batch_transform_with_lambdastep.ipynb`)
that builds a three-step pipeline (lambda/callback fetch step, create-model
step, transform step), plus a small registry-lookup helper
(`get_approved_package` in `utils.py`) and the lambda handler
(`lambda_step_code.py`); the latter two files are absent from the source
snapshot, so their behaviour is modelled from the specification where noted.
-/

namespace BatchTransformPipeline

/-- Approval status of a model package, per the data model:
`enum{Approved, Rejected, PendingManualApproval}`. -/
inductive ApprovalStatus
  | Approved
  | Rejected
  | PendingManualApproval
  deriving DecidableEq, Repr

/-- A model-package record held by the model registry:
`{arn, creationTime, approvalStatus, imageUri, modelDataUrl}`. -/
structure ModelPackageRecord where
  arn : String
  creationTime : Nat
  approvalStatus : ApprovalStatus
  imageUri : String
  modelDataUrl : String
  deriving DecidableEq, Repr

/-- Errors of the registry selector: `NotFound` when no approved record
exists, `RegistryUnavailable` when the listing call cannot be completed. -/
inductive SelectorError
  | NotFound
  | RegistryUnavailable
  deriving DecidableEq, Repr

/-- The external model registry: a collection of records, each tagged with the
model-package-group it belongs to. -/
structure Registry where
  records : List (String × ModelPackageRecord)
  deriving DecidableEq, Repr

/-- Descending-by-creationTime ordering used by the registry listing: `a`
comes no later in the listing than `b` when `a` was created no earlier. -/
def laterFirst (a b : ModelPackageRecord) : Prop :=
  b.creationTime ≤ a.creationTime

instance : DecidableRel laterFirst := fun x y => Nat.decLe y.creationTime x.creationTime

instance : IsTotal ModelPackageRecord laterFirst :=
  ⟨fun x y => (Nat.le_total x.creationTime y.creationTime).symm⟩

instance : IsTrans ModelPackageRecord laterFirst :=
  ⟨fun _ _ _ hab hbc => Nat.le_trans hbc hab⟩

/-- The records of the registry belonging to a given group. -/
def groupRecords (reg : Registry) (groupName : String) : List ModelPackageRecord :=
  (reg.records.filter (fun p => p.1 == groupName)).map Prod.snd

/-- Modelled from the spec: the registry-query collaborator
`listModelPackages(groupName) -> sequence<ModelPackageRecord>` ordered by
creationTime descending; a pure read, returning the registry state unchanged.
The concrete collaborator (the SageMaker `list_model_packages` API used by
`utils.py`, absent from the source snapshot) is external to the core. -/
def listModelPackages (reg : Registry) (groupName : String) :
    List ModelPackageRecord × Registry :=
  ((groupRecords reg groupName).insertionSort laterFirst, reg)

/-- Whether a record is approved. -/
def isApproved (r : ModelPackageRecord) : Bool :=
  r.approvalStatus == ApprovalStatus.Approved

/-- Modelled from the spec: `get_approved_package` / `selectLatestApproved`
(defined in `utils.py`, absent from the source snapshot): retrieve the group's
records ordered by creationTime descending, filter to approvalStatus ==
Approved, select the first element of the filtered sequence; fails with
`NotFound` when the filtered sequence is empty. The registry state is
threaded through to make the read-only nature of the call observable. -/
def get_approved_package (reg : Registry) (groupName : String) :
    Except SelectorError ModelPackageRecord × Registry :=
  match (listModelPackages reg groupName).1.filter isApproved with
  | [] => (Except.error SelectorError.NotFound, (listModelPackages reg groupName).2)
  | r :: _ => (Except.ok r, (listModelPackages reg groupName).2)

/-- The scenario registry of the spec: records A (time 10, Approved),
B (time 20, Rejected), C (time 15, Approved), all in one group. -/
def scenarioRegistry : Registry :=
  ⟨[("demoGroup", ⟨"A", 10, ApprovalStatus.Approved, "imgA", "urlA"⟩),
    ("demoGroup", ⟨"B", 20, ApprovalStatus.Rejected, "imgB", "urlB"⟩),
    ("demoGroup", ⟨"C", 15, ApprovalStatus.Approved, "imgC", "urlC"⟩)]⟩

/-- The record the scenario expects to be selected. -/
def scenarioRecordC : ModelPackageRecord :=
  ⟨"C", 15, ApprovalStatus.Approved, "imgC", "urlC"⟩

/-- The kind of a pipeline node: the callback/lambda fetch step, the
create-model step, or the batch-transform step. -/
inductive NodeKind
  | ExternalCallback
  | CreateModel
  | Transform
  deriving DecidableEq, Repr

/-- An input binding of a pipeline node: a constant value fixed at build
time, a name-based reference to an output of another node (`properties`
references in the notebook), or a reference to a pipeline parameter. -/
inductive InputValue
  | const : String → InputValue
  | outputRef : (node : String) → (output : String) → InputValue
  | param : String → InputValue
  deriving DecidableEq, Repr

/-- A pipeline node: name, kind, named inputs, declared output names. -/
structure PipelineNode where
  name : String
  kind : NodeKind
  inputs : List (String × InputValue)
  outputs : List String
  deriving DecidableEq, Repr

/-- A pipeline parameter: `{name, defaultValue}`, overridable per run. -/
structure PipelineParameter where
  name : String
  defaultValue : String
  deriving DecidableEq, Repr

/-- A built pipeline definition. -/
structure PipelineDef where
  name : String
  parameters : List PipelineParameter
  steps : List PipelineNode
  deriving DecidableEq, Repr

/-- Build-time errors of the pipeline definition. -/
inductive BuildError
  | InvalidTopology
  deriving DecidableEq, Repr

/-- Configuration of the lambda function behind the callback step, from the
notebook: `Lambda(function_name=..., timeout=600, memory_size=128)`. -/
structure LambdaConfig where
  function_name : String
  timeout : Nat
  memory_size : Nat
  deriving DecidableEq, Repr

/-- Notebook constant `model_package_group_name`. -/
def model_package_group_name : String :=
  "lambdaBatchTransformPipelineModelPackageGroup"

/-- Notebook constant `lambda_function_name`. -/
def lambda_function_name : String := "lambdaBatchTransformPipelineLambda"

/-- Notebook constant `pipeline_name`. -/
def pipeline_name : String := "BatchTransformPipelineWithLambdaStep"

/-- Notebook cell: `func = Lambda(function_name=lambda_function_name, ...,
timeout=600, memory_size=128)`. -/
def func : LambdaConfig := ⟨lambda_function_name, 600, 128⟩

/-- Notebook cell: `batch_data = ParameterString(name="BatchData",
default_value=batch_data_uri)`. -/
def batch_data (batch_data_uri : String) : PipelineParameter :=
  ⟨"BatchData", batch_data_uri⟩

/-- Notebook cell: `step_latest_model_fetch = LambdaStep(
name="fetchLatestModel", lambda_func=func,
inputs={"model_package_group_name": model_package_group_name},
outputs=[LambdaOutput("ModelUrl", String), LambdaOutput("ImageUri", String)])`. -/
def step_latest_model_fetch : PipelineNode :=
  { name := "fetchLatestModel"
    kind := NodeKind.ExternalCallback
    inputs := [("model_package_group_name",
                InputValue.const model_package_group_name)]
    outputs := ["ModelUrl", "ImageUri"] }

/-- Notebook cells: `model = Model(
image_uri=step_latest_model_fetch.properties.Outputs["ImageUri"],
model_data=step_latest_model_fetch.properties.Outputs["ModelUrl"], ...)`;
`step_create_model = CreateModelStep(name="CreateModel", model=model,
inputs=CreateModelInput(instance_type="ml.m5.large"))`. The step exposes
the created model's name as its `ModelName` property. -/
def step_create_model : PipelineNode :=
  { name := "CreateModel"
    kind := NodeKind.CreateModel
    inputs := [("image_uri", InputValue.outputRef "fetchLatestModel" "ImageUri"),
               ("model_data", InputValue.outputRef "fetchLatestModel" "ModelUrl"),
               ("instance_type", InputValue.const "ml.m5.large")]
    outputs := ["ModelName"] }

/-- Notebook cells: `transformer = Transformer(
model_name=step_create_model.properties.ModelName,
instance_type="ml.m5.large", instance_count=1,
output_path=f"s3://\x7bdefault_bucket\x7d/AbaloneTransform")`;
`step_transform = TransformStep(name="Transform", transformer=transformer,
inputs=TransformInput(data=batch_data))`. -/
def step_transform (default_bucket : String) : PipelineNode :=
  { name := "Transform"
    kind := NodeKind.Transform
    inputs := [("model_name", InputValue.outputRef "CreateModel" "ModelName"),
               ("data", InputValue.param "BatchData"),
               ("instance_type", InputValue.const "ml.m5.large"),
               ("instance_count", InputValue.const "1"),
               ("output_path",
                InputValue.const ("s3://" ++ default_bucket ++ "/AbaloneTransform"))]
    outputs := [] }

/-- The three steps handed to `Pipeline(steps=[step_latest_model_fetch,
step_create_model, step_transform])`. -/
def pipelineSteps (default_bucket : String) : List PipelineNode :=
  [step_latest_model_fetch, step_create_model, step_transform default_bucket]

/-- Whether an input value only mentions outputs declared by the given
already-declared upstream nodes: an output reference must name an upstream
node that declares that output; constants and parameters are always valid. -/
def refDeclared (declared : List PipelineNode) : InputValue → Bool
  | InputValue.outputRef node output =>
      declared.any (fun n => n.name == node && n.outputs.contains output)
  | _ => true

/-- Modelled from the spec: the structural build-time topology check — every
output referenced by a downstream node must be declared by an upstream node
(the concrete check lives in the external pipeline SDK, not in the source
snapshot). `declared` accumulates the nodes already seen upstream. -/
def checkTopology : List PipelineNode → List PipelineNode → Bool
  | _, [] => true
  | declared, n :: rest =>
      n.inputs.all (fun p => refDeclared declared p.2) &&
        checkTopology (declared ++ [n]) rest

/-- Modelled from the spec: building the pipeline definition succeeds when
the topology check passes and fails with `InvalidTopology` otherwise. -/
def buildPipeline (name : String) (parameters : List PipelineParameter)
    (steps : List PipelineNode) : Except BuildError PipelineDef :=
  if checkTopology [] steps then Except.ok ⟨name, parameters, steps⟩
  else Except.error BuildError.InvalidTopology

/-- Notebook cell: `pipeline = Pipeline(name=pipeline_name,
parameters=[batch_data], steps=[step_latest_model_fetch, step_create_model,
step_transform])`, with the ambient `default_bucket` and the uploaded
`batch_data_uri` made explicit arguments. -/
def pipeline (default_bucket batch_data_uri : String) :
    Except BuildError PipelineDef :=
  buildPipeline pipeline_name [batch_data batch_data_uri]
    (pipelineSteps default_bucket)

/-- Errors a node run can end in. -/
inductive RunError
  | CallbackTimeout
  | CallbackReportedFailure
  deriving DecidableEq, Repr

/-- Status of a node within a pipeline run. -/
inductive NodeStatus
  | succeeded
  | failed : RunError → NodeStatus
  | notStarted
  deriving DecidableEq, Repr

/-- Modelled from the spec: the environment a pipeline run executes in.
`callbackSignal` describes the external callback target: `some (t, ok)`
means an explicit success (`ok = true`) or failure (`ok = false`) signal
arrives `t` time-units after the callback is invoked; `none` means no
signal ever arrives. `nodeDuration` gives the running time of the
externally computed non-callback nodes. -/
structure ExecEnv where
  callbackSignal : Option (Nat × Bool)
  nodeDuration : String → Nat

/-- The record of one node within a pipeline run: its status and the time
interval during which it executed. -/
structure NodeRun where
  nodeName : String
  status : NodeStatus
  startTime : Nat
  endTime : Nat
  deriving DecidableEq, Repr

/-- Modelled from the spec: running a single node. An ExternalCallback node
blocks until the success-or-failure signal arrives; if no signal arrives
within the configured timeout window the node is treated as failed with
`CallbackTimeout`. Other nodes are delegated to external collaborators that
take `nodeDuration` time-units and succeed. Returns status and duration. -/
def runNode (env : ExecEnv) (timeout : Nat) (n : PipelineNode) :
    NodeStatus × Nat :=
  match n.kind with
  | NodeKind.ExternalCallback =>
      match env.callbackSignal with
      | none => (NodeStatus.failed RunError.CallbackTimeout, timeout)
      | some (t, ok) =>
          if t ≤ timeout then
            (if ok then NodeStatus.succeeded
             else NodeStatus.failed RunError.CallbackReportedFailure, t)
          else (NodeStatus.failed RunError.CallbackTimeout, timeout)
  | _ => (NodeStatus.succeeded, env.nodeDuration n.name)

/-- Modelled from the spec: the external orchestrator runs the nodes
strictly sequentially in their declared order, advancing a clock; a node
runs only while every upstream node has succeeded (`upstreamOk`), and once
a node fails every later node is left `notStarted`. -/
def execSteps (env : ExecEnv) (timeout : Nat) :
    Nat → Bool → List PipelineNode → List NodeRun
  | _, _, [] => []
  | clock, upstreamOk, n :: rest =>
      if upstreamOk then
        let sd := runNode env timeout n
        ⟨n.name, sd.1, clock, clock + sd.2⟩ ::
          execSteps env timeout (clock + sd.2)
            (sd.1 == NodeStatus.succeeded) rest
      else
        ⟨n.name, NodeStatus.notStarted, clock, clock⟩ ::
          execSteps env timeout clock false rest

/-- Modelled from the spec: a full pipeline run starts the clock at 0 with
no failed upstream node. -/
def execPipeline (env : ExecEnv) (timeout : Nat) (p : PipelineDef) :
    List NodeRun :=
  execSteps env timeout 0 true p.steps

/-- Modelled from the spec: resolving a pipeline parameter at run start —
an override supplied for the run wins, otherwise the default value is
used. -/
def resolveParam (overrides : List (String × String))
    (p : PipelineParameter) : String :=
  match overrides.find? (fun o => o.1 == p.name) with
  | some o => o.2
  | none => p.defaultValue

/-- Modelled from the spec: resolving an input binding at execution time —
constants stand for themselves, parameters resolve through the run's
overrides and defaults, and output references are substituted by the
orchestrator from the producing node's outputs (`produced`). -/
def resolveValue (parameters : List PipelineParameter)
    (overrides : List (String × String))
    (produced : String → String → Option String) : InputValue → Option String
  | InputValue.const s => some s
  | InputValue.param pname =>
      match parameters.find? (fun p => p.name == pname) with
      | some p => some (resolveParam overrides p)
      | none => none
  | InputValue.outputRef node output => produced node output

/-- The input binding of a node under a given key. -/
def nodeInput (n : PipelineNode) (key : String) : Option InputValue :=
  (n.inputs.find? (fun p => p.1 == key)).map Prod.snd

/-- The listing contains exactly the group's records. -/
lemma mem_listing (reg : Registry) (g : String) (x : ModelPackageRecord) :
    x ∈ (listModelPackages reg g).1 ↔ x ∈ groupRecords reg g :=
  (List.perm_insertionSort laterFirst (groupRecords reg g)).mem_iff

/-- The listing is ordered by creationTime descending. -/
lemma listing_sorted (reg : Registry) (g : String) :
    List.Pairwise laterFirst (listModelPackages reg g).1 :=
  List.sorted_insertionSort laterFirst (groupRecords reg g)

/-- The selector returns the registry state unchanged. -/
lemma get_approved_package_state (reg : Registry) (g : String) :
    (get_approved_package reg g).2 = reg := by
  unfold get_approved_package
  cases hx : (listModelPackages reg g).1.filter isApproved <;>
    simp [hx, listModelPackages]

/-- C1: for every registry whose group holds at least one Approved record,
`get_approved_package` returns an Approved record of the group whose
creationTime is maximal among the group's Approved records; and on the
scenario registry (A time 10 Approved, B time 20 Rejected, C time 15
Approved) it returns record C. -/
theorem get_approved_package_latest_approved :
    (∀ (reg : Registry) (g : String),
        (∃ r ∈ groupRecords reg g, r.approvalStatus = ApprovalStatus.Approved) →
        ∃ r, (get_approved_package reg g).1 = Except.ok r ∧
          r ∈ groupRecords reg g ∧
          r.approvalStatus = ApprovalStatus.Approved ∧
          ∀ s ∈ groupRecords reg g, s.approvalStatus = ApprovalStatus.Approved →
            s.creationTime ≤ r.creationTime) ∧
    (get_approved_package scenarioRegistry "demoGroup").1 =
      Except.ok scenarioRecordC := by
  constructor
  · intro reg g h
    obtain ⟨r0, hr0m, hr0a⟩ := h
    have hfmem : r0 ∈ (listModelPackages reg g).1.filter isApproved := by
      rw [List.mem_filter]
      exact ⟨(mem_listing reg g r0).2 hr0m, by simp [isApproved, hr0a]⟩
    rcases hfilt : (listModelPackages reg g).1.filter isApproved with _ | ⟨r, rest⟩
    · rw [hfilt] at hfmem; cases hfmem
    · have hrm : r ∈ (listModelPackages reg g).1.filter isApproved := by
        rw [hfilt]; exact List.mem_cons_self r rest
      have hrlist := List.mem_filter.1 hrm
      refine ⟨r, ?_, ?_, ?_, ?_⟩
      · simp [get_approved_package, hfilt]
      · exact (mem_listing reg g r).1 hrlist.1
      · simpa [isApproved] using hrlist.2
      · intro s hsm hsa
        have hsf : s ∈ (listModelPackages reg g).1.filter isApproved := by
          rw [List.mem_filter]
          exact ⟨(mem_listing reg g s).2 hsm, by simp [isApproved, hsa]⟩
        rw [hfilt] at hsf
        rcases List.mem_cons.1 hsf with heq | htail
        · subst heq; exact Nat.le_refl _
        · have hpw : List.Pairwise laterFirst
              ((listModelPackages reg g).1.filter isApproved) :=
            List.Pairwise.sublist (List.filter_sublist _) (listing_sorted reg g)
          rw [hfilt] at hpw
          exact List.rel_of_pairwise_cons hpw htail
  · rfl

/-- Closed witness for C1 at the scenario registry. -/
theorem get_approved_package_latest_approved_witness :
    ∃ r, (get_approved_package scenarioRegistry "demoGroup").1 = Except.ok r ∧
      r ∈ groupRecords scenarioRegistry "demoGroup" ∧
      r.approvalStatus = ApprovalStatus.Approved ∧
      ∀ s ∈ groupRecords scenarioRegistry "demoGroup",
        s.approvalStatus = ApprovalStatus.Approved →
          s.creationTime ≤ r.creationTime :=
  get_approved_package_latest_approved.1 scenarioRegistry "demoGroup" (by decide)

/-- C2: for every registry whose group holds no Approved record (the empty
group included), `get_approved_package` fails with `NotFound`. -/
theorem get_approved_package_not_found :
    ∀ (reg : Registry) (g : String),
      (∀ r ∈ groupRecords reg g, r.approvalStatus ≠ ApprovalStatus.Approved) →
      (get_approved_package reg g).1 = Except.error SelectorError.NotFound := by
  intro reg g h
  have hfilt : (listModelPackages reg g).1.filter isApproved = [] := by
    rw [List.filter_eq_nil_iff]
    intro a ha
    have ham : a ∈ groupRecords reg g := (mem_listing reg g a).1 ha
    simpa [isApproved] using h a ham
  simp [get_approved_package, hfilt]

/-- Closed witness for C2: a registry holding only a Rejected record, and the
empty registry, both fail with `NotFound`. -/
theorem get_approved_package_not_found_witness :
    (get_approved_package
        ⟨[("g", ⟨"B", 20, ApprovalStatus.Rejected, "imgB", "urlB"⟩)]⟩ "g").1 =
      Except.error SelectorError.NotFound ∧
    (get_approved_package ⟨[]⟩ "g").1 = Except.error SelectorError.NotFound :=
  ⟨get_approved_package_not_found _ "g" (by decide),
   get_approved_package_not_found ⟨[]⟩ "g" (by decide)⟩

/-- C7: calling `get_approved_package` twice with the same group, the second
call on the state left by the first, yields the identical result. -/
theorem get_approved_package_idempotent :
    ∀ (reg : Registry) (g : String),
      (get_approved_package (get_approved_package reg g).2 g).1 =
        (get_approved_package reg g).1 ∧
      (get_approved_package (get_approved_package reg g).2 g).2 =
        (get_approved_package reg g).2 := by
  intro reg g
  rw [get_approved_package_state reg g]
  exact ⟨rfl, get_approved_package_state reg g⟩

/-- C9: `get_approved_package` is a pure read: the registry state, its record
list and the group's membership are unchanged by the call. -/
theorem get_approved_package_pure_read :
    ∀ (reg : Registry) (g : String),
      (get_approved_package reg g).2 = reg ∧
      (listModelPackages reg g).2 = reg ∧
      (get_approved_package reg g).2.records = reg.records ∧
      groupRecords (get_approved_package reg g).2 g = groupRecords reg g := by
  intro reg g
  refine ⟨get_approved_package_state reg g, rfl, ?_, ?_⟩ <;>
    rw [get_approved_package_state reg g]

/-- C3: building the pipeline yields exactly the three-node chain
fetch (ExternalCallback) → CreateModel → Transform; the fetch step declares
exactly the two string outputs ModelUrl and ImageUri; CreateModel's inputs
reference the fetch step's ImageUri and ModelUrl outputs by name; and
Transform's inputs reference CreateModel's ModelName output and the
BatchData pipeline parameter. -/
theorem pipeline_three_node_chain :
    ∀ (default_bucket batch_data_uri : String),
      pipeline default_bucket batch_data_uri =
        Except.ok ⟨pipeline_name, [batch_data batch_data_uri],
          [step_latest_model_fetch, step_create_model,
           step_transform default_bucket]⟩ ∧
      step_latest_model_fetch.kind = NodeKind.ExternalCallback ∧
      step_create_model.kind = NodeKind.CreateModel ∧
      (step_transform default_bucket).kind = NodeKind.Transform ∧
      step_latest_model_fetch.outputs = ["ModelUrl", "ImageUri"] ∧
      nodeInput step_create_model "image_uri" =
        some (InputValue.outputRef step_latest_model_fetch.name "ImageUri") ∧
      nodeInput step_create_model "model_data" =
        some (InputValue.outputRef step_latest_model_fetch.name "ModelUrl") ∧
      nodeInput (step_transform default_bucket) "model_name" =
        some (InputValue.outputRef step_create_model.name "ModelName") ∧
      nodeInput (step_transform default_bucket) "data" =
        some (InputValue.param (batch_data batch_data_uri).name) := by
  intro b u
  exact ⟨rfl, rfl, rfl, rfl, rfl, rfl, rfl, rfl, rfl⟩

/-- A downstream node of a passing topology only references outputs
declared by nodes before it. -/
lemma checkTopology_all_of_append (n : PipelineNode) (l2 : List PipelineNode) :
    ∀ (l1 declared : List PipelineNode),
      checkTopology declared (l1 ++ n :: l2) = true →
      n.inputs.all (fun p => refDeclared (declared ++ l1) p.2) = true := by
  intro l1
  induction l1 with
  | nil =>
    intro declared h
    rw [List.nil_append, checkTopology, Bool.and_eq_true] at h
    rw [List.append_nil]
    exact h.1
  | cons m l1 ih =>
    intro declared h
    rw [List.cons_append, checkTopology, Bool.and_eq_true] at h
    have := ih (declared ++ [m]) h.2
    simpa [List.append_assoc] using this

/-- C4: building fails with `InvalidTopology` whenever a node references an
output that no node before it declares; in particular, dropping the
ImageUri output from the fetch step while CreateModel still references it
makes the build fail, while the three declared notebook steps build
successfully. -/
theorem buildPipeline_invalid_topology :
    (∀ (name : String) (parameters : List PipelineParameter)
        (upstream : List PipelineNode) (n : PipelineNode)
        (rest : List PipelineNode) (key mname oname : String),
        (key, InputValue.outputRef mname oname) ∈ n.inputs →
        (∀ u ∈ upstream, u.name = mname → oname ∉ u.outputs) →
        buildPipeline name parameters (upstream ++ n :: rest) =
          Except.error BuildError.InvalidTopology) ∧
    (∀ (default_bucket batch_data_uri : String),
        (pipeline default_bucket batch_data_uri).isOk = true ∧
        buildPipeline pipeline_name [batch_data batch_data_uri]
            [{ step_latest_model_fetch with outputs := ["ModelUrl"] },
             step_create_model, step_transform default_bucket] =
          Except.error BuildError.InvalidTopology) := by
  constructor
  · intro name parameters upstream n rest key mname oname hmem hundecl
    unfold buildPipeline
    cases hc : checkTopology [] (upstream ++ n :: rest) with
    | false => rfl
    | true =>
      exfalso
      have hall := checkTopology_all_of_append n rest upstream [] hc
      rw [List.nil_append] at hall
      have href := List.all_eq_true.1 hall _ hmem
      rw [refDeclared] at href
      obtain ⟨u, hu, hcond⟩ := List.any_eq_true.1 href
      rw [Bool.and_eq_true] at hcond
      have hname : u.name = mname := by simpa using hcond.1
      have hcont : oname ∈ u.outputs := by simpa using hcond.2
      exact hundecl u hu hname hcont
  · intro b u
    exact ⟨rfl, rfl⟩

/-- Closed witness for C4: the fetch step stripped of its ImageUri output,
followed by the CreateModel step that references it, fails the build. -/
theorem buildPipeline_invalid_topology_witness :
    buildPipeline pipeline_name [batch_data "s3://bucket/data"]
        ([{ step_latest_model_fetch with outputs := ["ModelUrl"] }] ++
          step_create_model :: [step_transform "bucket"]) =
      Except.error BuildError.InvalidTopology :=
  buildPipeline_invalid_topology.1 pipeline_name [batch_data "s3://bucket/data"]
    [{ step_latest_model_fetch with outputs := ["ModelUrl"] }]
    step_create_model [step_transform "bucket"]
    "image_uri" "fetchLatestModel" "ImageUri" (by decide) (by decide)

/-- C8: the pipeline exposes exactly one parameter, the string parameter
BatchData; with no override its default (the data-location string) is
used, and an override supplied at run start replaces it. -/
theorem pipeline_single_parameter :
    ∀ (default_bucket batch_data_uri v : String),
      (pipeline default_bucket batch_data_uri).toOption.map
          PipelineDef.parameters = some [batch_data batch_data_uri] ∧
      (batch_data batch_data_uri).name = "BatchData" ∧
      (batch_data batch_data_uri).defaultValue = batch_data_uri ∧
      resolveParam [] (batch_data batch_data_uri) = batch_data_uri ∧
      resolveParam [("BatchData", v)] (batch_data batch_data_uri) = v := by
  intro b u v
  exact ⟨rfl, rfl, rfl, rfl, rfl⟩

/-- C10: the Transform step's output location is the build-time constant
`s3://<default_bucket>/AbaloneTransform`: it resolves to that value under
every run override, it is a constant rather than a parameter reference, and
the only input of the Transform step bound to the BatchData parameter is
the input data location, which does follow the override. -/
theorem transform_output_location_constant :
    ∀ (default_bucket batch_data_uri v : String)
      (overrides : List (String × String))
      (produced : String → String → Option String),
      nodeInput (step_transform default_bucket) "output_path" =
        some (InputValue.const
          ("s3://" ++ default_bucket ++ "/AbaloneTransform")) ∧
      (nodeInput (step_transform default_bucket) "output_path").map
          (resolveValue [batch_data batch_data_uri] overrides produced) =
        some (some ("s3://" ++ default_bucket ++ "/AbaloneTransform")) ∧
      ((step_transform default_bucket).inputs.filter
          (fun p => p.2 == InputValue.param "BatchData")).map Prod.fst =
        ["data"] ∧
      (nodeInput (step_transform default_bucket) "data").map
          (resolveValue [batch_data batch_data_uri]
            [("BatchData", v)] produced) =
        some (some v) := by
  intro b u v ov pr
  exact ⟨rfl, rfl, rfl, rfl⟩

/-- Every node of a run starts no earlier than the clock it was scheduled
from and ends no earlier than it starts. -/
lemma execSteps_time_bounds (env : ExecEnv) (timeout : Nat) :
    ∀ (steps : List PipelineNode) (clock : Nat) (ok : Bool),
      ∀ r ∈ execSteps env timeout clock ok steps,
        clock ≤ r.startTime ∧ r.startTime ≤ r.endTime := by
  intro steps
  induction steps with
  | nil =>
    intro clock ok r hr
    simp [execSteps] at hr
  | cons n rest ih =>
    intro clock ok r hr
    cases ok with
    | false =>
      rw [execSteps] at hr
      rcases List.mem_cons.1 hr with heq | htail
      · subst heq
        exact ⟨Nat.le_refl _, Nat.le_refl _⟩
      · exact ih clock false r htail
    | true =>
      rw [execSteps] at hr
      simp only [if_pos] at hr
      rcases List.mem_cons.1 hr with heq | htail
      · subst heq
        exact ⟨Nat.le_refl _, Nat.le_add_right _ _⟩
      · have := ih (clock + (runNode env timeout n).2)
          ((runNode env timeout n).1 == NodeStatus.succeeded) r htail
        exact ⟨Nat.le_trans (Nat.le_add_right _ _) this.1, this.2⟩

/-- The nodes of a run occupy pairwise non-overlapping time intervals, in
order: each node ends no later than any later node starts. -/
lemma execSteps_pairwise_time (env : ExecEnv) (timeout : Nat) :
    ∀ (steps : List PipelineNode) (clock : Nat) (ok : Bool),
      List.Pairwise (fun a b => a.endTime ≤ b.startTime)
        (execSteps env timeout clock ok steps) := by
  intro steps
  induction steps with
  | nil =>
    intro clock ok
    simp [execSteps]
  | cons n rest ih =>
    intro clock ok
    cases ok with
    | false =>
      rw [execSteps]
      exact List.Pairwise.cons
        (fun r hr => (execSteps_time_bounds env timeout rest clock false r hr).1)
        (ih clock false)
    | true =>
      rw [execSteps]
      simp only [if_pos]
      exact List.Pairwise.cons
        (fun r hr =>
          (execSteps_time_bounds env timeout rest
            (clock + (runNode env timeout n).2)
            ((runNode env timeout n).1 == NodeStatus.succeeded) r hr).1)
        (ih (clock + (runNode env timeout n).2)
          ((runNode env timeout n).1 == NodeStatus.succeeded))

/-- After a failure, every remaining node is left `notStarted`. -/
lemma execSteps_false_not_started (env : ExecEnv) (timeout : Nat) :
    ∀ (steps : List PipelineNode) (clock : Nat),
      ∀ r ∈ execSteps env timeout clock false steps,
        r.status = NodeStatus.notStarted := by
  intro steps
  induction steps with
  | nil =>
    intro clock r hr
    simp [execSteps] at hr
  | cons n rest ih =>
    intro clock r hr
    rw [execSteps] at hr
    rcases List.mem_cons.1 hr with heq | htail
    · subst heq; rfl
    · exact ih clock r htail

/-- A list of runs that are all `notStarted` vacuously satisfies the
started-only-after-success relation. -/
lemma pairwise_of_all_not_started (l : List NodeRun)
    (h : ∀ r ∈ l, r.status = NodeStatus.notStarted) :
    List.Pairwise (fun a b => b.status ≠ NodeStatus.notStarted →
      a.status = NodeStatus.succeeded) l := by
  induction l with
  | nil => exact List.Pairwise.nil
  | cons r l ih =>
    refine List.Pairwise.cons ?_ (ih fun s hs => h s (List.mem_cons_of_mem r hs))
    intro b hb hbn
    exact absurd (h b (List.mem_cons_of_mem r hb)) hbn

/-- Whenever a later node of a run actually started, every earlier node
succeeded. -/
lemma execSteps_pairwise_status (env : ExecEnv) (timeout : Nat) :
    ∀ (steps : List PipelineNode) (clock : Nat),
      List.Pairwise (fun a b => b.status ≠ NodeStatus.notStarted →
        a.status = NodeStatus.succeeded)
        (execSteps env timeout clock true steps) := by
  intro steps
  induction steps with
  | nil =>
    intro clock
    simp [execSteps]
  | cons n rest ih =>
    intro clock
    rw [execSteps]
    simp only [if_pos]
    by_cases hs : (runNode env timeout n).1 = NodeStatus.succeeded
    · refine List.Pairwise.cons (fun b _ _ => hs) ?_
      rw [show ((runNode env timeout n).1 == NodeStatus.succeeded) = true
            from beq_iff_eq.2 hs]
      exact ih (clock + (runNode env timeout n).2)
    · have hflag : ((runNode env timeout n).1 == NodeStatus.succeeded) = false :=
        beq_eq_false_iff_ne.2 hs
      rw [hflag]
      have hns := execSteps_false_not_started env timeout rest
        (clock + (runNode env timeout n).2)
      refine List.Pairwise.cons ?_ (pairwise_of_all_not_started _ hns)
      intro b hb hbn
      exact absurd (hns b hb) hbn

/-- C6: every pipeline run is strictly sequential: the runs of the nodes,
in declared order, occupy pairwise non-overlapping time intervals (no two
nodes ever execute in parallel), and a node starts at all only if every
node before it succeeded, i.e. produced its declared outputs. -/
theorem pipeline_execution_sequential :
    ∀ (env : ExecEnv) (timeout : Nat) (p : PipelineDef),
      List.Pairwise (fun a b => a.endTime ≤ b.startTime)
        (execPipeline env timeout p) ∧
      List.Pairwise (fun a b => b.status ≠ NodeStatus.notStarted →
        a.status = NodeStatus.succeeded)
        (execPipeline env timeout p) ∧
      ∀ r ∈ execPipeline env timeout p, r.startTime ≤ r.endTime :=
  fun env timeout p =>
    ⟨execSteps_pairwise_time env timeout p.steps 0 true,
     execSteps_pairwise_status env timeout p.steps 0,
     fun r hr => (execSteps_time_bounds env timeout p.steps 0 true r hr).2⟩

/-- C5: when the external callback target sends no success-or-failure
signal within the configured 600-time-unit timeout window, the fetch node
fails with `CallbackTimeout` and the CreateModel and Transform nodes never
start. -/
theorem callback_timeout_downstream_never_start :
    ∀ (env : ExecEnv) (default_bucket : String),
      (∀ t ok, env.callbackSignal = some (t, ok) → func.timeout < t) →
      execSteps env func.timeout 0 true (pipelineSteps default_bucket) =
        [⟨"fetchLatestModel", NodeStatus.failed RunError.CallbackTimeout,
          0, 600⟩,
         ⟨"CreateModel", NodeStatus.notStarted, 600, 600⟩,
         ⟨"Transform", NodeStatus.notStarted, 600, 600⟩] := by
  intro env b h
  have hrun : runNode env func.timeout step_latest_model_fetch =
      (NodeStatus.failed RunError.CallbackTimeout, 600) := by
    cases hs : env.callbackSignal with
    | none => simp [runNode, step_latest_model_fetch, func, hs]
    | some p =>
      obtain ⟨t, ok⟩ := p
      have hnle : ¬ t ≤ 600 := Nat.not_le_of_lt (h t ok hs)
      simp [runNode, step_latest_model_fetch, func, hs, if_neg hnle]
  simp only [pipelineSteps]
  simp [execSteps, hrun]
  exact ⟨rfl, rfl, rfl⟩

/-- Closed witness for C5: the environment in which no signal ever
arrives. -/
theorem callback_timeout_downstream_never_start_witness :
    execSteps ⟨none, fun _ => 5⟩ func.timeout 0 true
        (pipelineSteps "bucket") =
      [⟨"fetchLatestModel", NodeStatus.failed RunError.CallbackTimeout,
        0, 600⟩,
       ⟨"CreateModel", NodeStatus.notStarted, 600, 600⟩,
       ⟨"Transform", NodeStatus.notStarted, 600, 600⟩] :=
  callback_timeout_downstream_never_start ⟨none, fun _ => 5⟩ "bucket"
    (fun t ok h => by cases h)

end BatchTransformPipeline
